import Mathlib

/-!
Shallow embedding of `plaso/parsers/exim.py` (Exim4Parser), the single source
file of this repository, together with the pieces of the surrounding plaso
framework that the parser calls and that are not included under `src/`
(those are modelled from the spec and marked as such).

The pyparsing grammar `_EXIM4_LINE` is embedded as a function over `List Char`
that mirrors the semantics of the specific combinators the source uses:
`Word(nums, exact=k)` (no whitespace inside the token, exactly `k` digit
characters), implicit skipping of pyparsing's default whitespace characters
(space, tab, newline) before every element, `Suppress` literals,
`Optional(Suppress(':'))`, the non-greedy `Regex` body with its zero-width
lookahead boundary, and `lineEnd()`.  Python regular expression classes are
modelled over their ASCII meaning, which covers every input the claims use.
-/

namespace Exim4

/-- The pyparsing default whitespace characters (space, tab, newline) that are
implicitly skipped before each grammar element. -/
def pyWs (c : Char) : Bool :=
  c = ' ' || c = '\t' || c = '\n'

/-- Skips pyparsing default whitespace, as a `ParserElement.preParse` does. -/
def skipWs (cs : List Char) : List Char :=
  cs.dropWhile pyWs

/-- The Python regex class `\s` (ASCII): space, tab, newline, carriage return,
vertical tab, form feed. -/
def pySpaceRe (c : Char) : Bool :=
  c = ' ' || c = '\t' || c = '\n' || c = '\r' || c = Char.ofNat 11 || c = Char.ofNat 12

/-- The Python regex class `\w` (ASCII): letters, digits and underscore. -/
def isWordC (c : Char) : Bool :=
  c.isAlphanum || c = '_'

/-- The `pyparsing.printables` character set: ASCII 33..126 (printable, no
space). -/
def isPrintableC (c : Char) : Bool :=
  33 ≤ c.toNat && c.toNat ≤ 126

/-- `_REPORTER_CHARACTERS`: printables with `:`, `[` and `<` removed
(`src/plaso/parsers/exim.py` lines 35-36). -/
def isReporterChar (c : Char) : Bool :=
  isPrintableC c && !(c = ':' || c = '[' || c = '<')

/-- `_FACILITY_CHARACTERS`: printables with `:` and `>` removed
(`src/plaso/parsers/exim.py` lines 37-38). -/
def isFacilityChar (c : Char) : Bool :=
  isPrintableC c && !(c = ':' || c = '>')

/-- Consumes one character satisfying `p`, without whitespace skipping (a raw
regex step). -/
def dropIf (p : Char → Bool) : List Char → Option (List Char)
  | c :: r => if p c then some r else none
  | [] => none

/-- Consumes one or more characters satisfying `p`, greedily (regex `p+`
where a following token cannot match a `p` character). -/
def dropSome (p : Char → Bool) : List Char → Option (List Char)
  | c :: r => if p c then some (r.dropWhile p) else none
  | [] => none

/-- Consumes exactly one digit character, returning it. -/
def takeDigit : List Char → Option (Char × List Char)
  | c :: r => if c.isDigit then some (c, r) else none
  | [] => none

/-- Consumes exactly two digit characters: the token body of
`pyparsing.Word(pyparsing.nums, exact=2)`. -/
def takeTwoDigits (cs : List Char) : Option (List Char × List Char) :=
  (takeDigit cs).bind fun a => (takeDigit a.2).map fun b => ([a.1, b.1], b.2)

/-- Consumes exactly four digit characters: the token body of
`pyparsing.Word(pyparsing.nums, exact=4)`. -/
def takeFourDigits (cs : List Char) : Option (List Char × List Char) :=
  (takeTwoDigits cs).bind fun a => (takeTwoDigits a.2).map fun b => (a.1 ++ b.1, b.2)

/-- Modelled from the spec: `text_parser.PyparsingConstants.YEAR`
(`plaso/parsers/text_parser.py`, not included under `src/`): a fixed-width
four-digit numeric token, with pyparsing whitespace skipping before it. -/
def YEAR (cs : List Char) : Option (List Char × List Char) :=
  takeFourDigits (skipWs cs)

/-- Modelled from the spec: `text_parser.PyparsingConstants.TWO_DIGITS`
(`plaso/parsers/text_parser.py`, not included under `src/`): a fixed-width
two-digit numeric token, with pyparsing whitespace skipping before it. -/
def TWO_DIGITS (cs : List Char) : Option (List Char × List Char) :=
  takeTwoDigits (skipWs cs)

/-- A `pyparsing.Suppress` literal of one character: skips whitespace, then
requires that character. -/
def pLit (c : Char) (cs : List Char) : Option (List Char) :=
  match skipWs cs with
  | c2 :: r => if c2 = c then some r else none
  | [] => none

/-- `pyparsing.Optional(pyparsing.Suppress(':'))`: the optional colon after
the date; on failure the location is left unchanged. -/
def pOptColon (cs : List Char) : Option (List Char) :=
  match pLit ':' cs with
  | some r => some r
  | none => some cs

/-- The regex `\d{2}:\d{2}:\d{2}` inside the body lookahead. -/
def timeAt (cs : List Char) : Bool :=
  ((takeTwoDigits cs).bind (fun a => dropIf (fun c => c = ':') a.2)
    |>.bind takeTwoDigits
    |>.bind (fun a => dropIf (fun c => c = ':') a.2)
    |>.bind takeTwoDigits).isSome

/-- The regex `\w{3}\s+\d{1,2}\s\d{2}:\d{2}:\d{2}` that the body lookahead
uses to recognize the start of the next (syslog / three-letter-month style)
record, including the backtracking on `\d{1,2}`. -/
def syslogStampAt (cs : List Char) : Bool :=
  match (dropIf isWordC cs).bind (dropIf isWordC) |>.bind (dropIf isWordC) with
  | none => false
  | some cs1 =>
    match dropSome pySpaceRe cs1 with
    | none => false
    | some cs2 =>
      match cs2 with
      | [] => false
      | c1 :: r1 =>
        if c1.isDigit then
          match r1 with
          | [] => false
          | c2 :: r2 =>
            if c2.isDigit then
              match r2 with
              | [] => false
              | c3 :: r3 => if pySpaceRe c3 then timeAt r3 else false
            else if pySpaceRe c2 then timeAt r2 else false
        else false

/-- The zero-width lookahead `(?=($|\n\w{3}\s+\d{1,2}\s\d{2}:\d{2}:\d{2}))` of
the body regex (`src/plaso/parsers/exim.py` lines 53-56), evaluated at the
suffix `cs` of the input: `$` (without `re.MULTILINE`) matches at the end of
the input or just before a final newline; the second alternative matches a
newline followed by a three-letter-month style timestamp. -/
def boundaryAt : List Char → Bool
  | [] => true
  | c :: r => if c = '\n' then (r.isEmpty || syslogStampAt r) else false

/-- The non-greedy body regex `.*?(?=($|\n\w{3}\s+\d{1,2}\s\d{2}:\d{2}:\d{2}))`
with `re.DOTALL` (`src/plaso/parsers/exim.py` lines 53-56): it captures the
shortest (possibly newline-containing) prefix after which the lookahead
matches, and does not consume the lookahead. -/
def bodyMatch : List Char → Option (List Char × List Char)
  | [] => if boundaryAt [] then some ([], []) else none
  | c :: rest =>
    if boundaryAt (c :: rest) then some ([], c :: rest)
    else
      match bodyMatch rest with
      | some (b, r) => some (c :: b, r)
      | none => none

/-- `pyparsing.lineEnd()`: skips space and tab (its whitespace characters are
the defaults with newline removed), then matches a newline or the end of the
input. -/
def lineEndP (cs : List Char) : Option (List Char) :=
  match cs.dropWhile (fun c => c = ' ' || c = '\t') with
  | [] => some []
  | c :: r => if c = '\n' then some r else none

/-- The structured field set extracted from one matched line
(`pyparsing.ParseResults` restricted to the names this grammar can set).
Accessing an unset results name in pyparsing yields the empty string, which
is how `structure.reporter` behaves for this grammar. -/
structure ParsedRecord where
  year : Nat
  month : Nat
  day : Nat
  hour : Nat
  minute : Nat
  second : Nat
  reporter : String
  body : String
deriving DecidableEq, Repr

/-- Converts the digit characters of a matched numeric token to the integer
that `PyParseIntCast` attaches to the result. -/
def digitsToNat (ds : List Char) : Nat :=
  ds.foldl (fun a c => a * 10 + (c.toNat - 48)) 0

/-- The tail of `_EXIM4_LINE` after the six date/time tokens: the optional
suppressed colon, the body regex (with its own whitespace skip), and
`lineEnd()`; on success the `ParseResults` record is built.  The grammar sets
no `reporter` results name (see `_EXIM4_LINE`, lines 66-69 of the source), so
the record's `reporter` field is the empty string pyparsing reports for an
unset name. -/
def parseTail (ys mos ds hs mis ss : List Char) (cs : List Char) : Option ParsedRecord :=
  (pOptColon cs).bind fun cs11 =>
  (bodyMatch (skipWs cs11)).bind fun bcr =>
  (lineEndP bcr.2).map fun _ =>
  { year := digitsToNat ys, month := digitsToNat mos, day := digitsToNat ds,
    hour := digitsToNat hs, minute := digitsToNat mis, second := digitsToNat ss,
    reporter := "", body := String.mk bcr.1 }

/-- Application of the `_EXIM4_LINE` pyparsing structure
(`src/plaso/parsers/exim.py` lines 58-69) to one line:
`date + Optional(Suppress(':')) + body + lineEnd()`, where `date` is
`YEAR - '-' - TWO_DIGITS - '-' - TWO_DIGITS + TWO_DIGITS - ':' - TWO_DIGITS -
':' - TWO_DIGITS` and each element skips leading default whitespace.  As with
`parseString`, trailing unconsumed input is allowed. -/
def parseExim4Line (line : String) : Option ParsedRecord :=
  (YEAR line.toList).bind fun ycs =>
  (pLit '-' ycs.2).bind fun cs2 =>
  (TWO_DIGITS cs2).bind fun mocs =>
  (pLit '-' mocs.2).bind fun cs4 =>
  (TWO_DIGITS cs4).bind fun dcs =>
  (TWO_DIGITS dcs.2).bind fun hcs =>
  (pLit ':' hcs.2).bind fun cs7 =>
  (TWO_DIGITS cs7).bind fun mics =>
  (pLit ':' mics.2).bind fun cs9 =>
  (TWO_DIGITS cs9).bind fun scs =>
  parseTail ycs.1 mocs.1 dcs.1 hcs.1 mics.1 scs.1 scs.2

/-- `LINE_STRUCTURES` (`src/plaso/parsers/exim.py` lines 71-72): the single
structure key and its grammar. -/
def LINE_STRUCTURES : List (String × (String → Option ParsedRecord)) :=
  [("exim4_line", parseExim4Line)]

/-- `_SUPPORTED_KEYS` (`src/plaso/parsers/exim.py` line 74). -/
def SUPPORTED_KEYS : List String :=
  LINE_STRUCTURES.map (fun kv => kv.1)

/-- The `_VERIFICATION_REGEX`
`^\d{4}-\d{2}-\d{2}\s\d{2}:\d{2}:\d{2}\s` (`src/plaso/parsers/exim.py`
line 27), matched with `re.match` (anchored at the start of the line). -/
def verificationMatch (cs : List Char) : Bool :=
  ((takeFourDigits cs).bind (fun a => dropIf (fun c => c = '-') a.2)
    |>.bind takeTwoDigits
    |>.bind (fun a => dropIf (fun c => c = '-') a.2)
    |>.bind takeTwoDigits
    |>.bind (fun a => dropIf pySpaceRe a.2)
    |>.bind takeTwoDigits
    |>.bind (fun a => dropIf (fun c => c = ':') a.2)
    |>.bind takeTwoDigits
    |>.bind (fun a => dropIf (fun c => c = ':') a.2)
    |>.bind takeTwoDigits
    |>.bind (fun a => dropIf pySpaceRe a.2)).isSome

/-- `Exim4Parser.VerifyStructure` (`src/plaso/parsers/exim.py` lines 135-146):
`re.match(self._VERIFICATION_REGEX, line) is not None`. -/
def VerifyStructure (line : String) : Bool :=
  verificationMatch line.toList

/-- Error conditions of the embedded code: `errors.UnableToParseFile` raised
by `ParseRecord` for an unsupported structure key, and the invalid-timestamp
condition of the Timestamp Normalizer. -/
inductive Exim4Error where
  | unableToParseFile (message : String)
  | invalidTimestamp
deriving DecidableEq, Repr

/-- Gregorian leap-year test. -/
def isLeapYear (y : Nat) : Bool :=
  (y % 4 = 0 && !(y % 100 = 0)) || y % 400 = 0

/-- Number of days in a month of the Gregorian calendar. -/
def daysInMonth (y m : Nat) : Nat :=
  if m = 2 then (if isLeapYear y then 29 else 28)
  else if m = 4 || m = 6 || m = 9 || m = 11 then 30
  else 31

/-- Calendar-validity test for a date/time field combination, the range that
`datetime.datetime` accepts. -/
def validDateTime (y mo d h mi s : Nat) : Bool :=
  1 ≤ y && y ≤ 9999 && 1 ≤ mo && mo ≤ 12 && 1 ≤ d && d ≤ daysInMonth y mo &&
    h < 24 && mi < 60 && s < 60

/-- Days from the POSIX epoch (1970-01-01) to the given valid Gregorian date
(standard civil-days computation; the year is at least 1, so all the
intermediate arithmetic stays in `Nat`). -/
def daysFromEpoch (y mo d : Nat) : Int :=
  let y2 := if mo ≤ 2 then y - 1 else y
  let era := y2 / 400
  let yoe := y2 % 400
  let mp := if 2 < mo then mo - 3 else mo + 9
  let doy := (153 * mp + 2) / 5 + d - 1
  let doe := yoe * 365 + yoe / 4 - yoe / 100 + doy
  ((era * 146097 + doe : Nat) : Int) - 719468

/-- Modelled from the spec: `timelib.Timestamp.FromTimeParts`
(`plaso/lib/timelib.py`, not included under `src/`).  Per spec section 4.3 it
takes the six integer fields plus a caller-provided timezone and returns an
absolute instant (plaso timestamps are microseconds since the POSIX epoch),
failing with an InvalidTimestamp condition when the field values are out of
calendar range.  The timezone is a fixed UTC offset in seconds (0 = UTC). -/
def FromTimeParts (year month day hour minutes seconds : Nat)
    (timezoneOffset : Int) : Except Exim4Error Int :=
  if validDateTime year month day hour minutes seconds then
    .ok ((daysFromEpoch year month day * 86400 +
      ((hour * 3600 + minutes * 60 + seconds : Nat) : Int) - timezoneOffset) * 1000000)
  else
    .error .invalidTimestamp

/-- A produced event: `text_events.TextEvent(timestamp, offset, attributes)`
plus its `DATA_TYPE`. -/
structure TextEvent where
  timestamp : Int
  offset : Nat
  attributes : List (String × String)
  dataType : String
deriving DecidableEq, Repr

/-- `Exim4LineEvent` (`src/plaso/parsers/exim.py` lines 14-16): a `TextEvent`
with `DATA_TYPE = 'exim4:line'`. -/
def Exim4LineEvent (timestamp : Int) (offset : Nat)
    (attributes : List (String × String)) : TextEvent :=
  { timestamp := timestamp, offset := offset, attributes := attributes,
    dataType := "exim4:line" }

/-- Outcome of a plugin's `Process(mediator, timestamp, attributes)` call: it
either completes normally, having emitted its own events through the
mediator, or raises `errors.WrongPlugin`. -/
inductive ProcessOutcome where
  | emitted (events : List TextEvent)
  | wrongPlugin
deriving Inhabited

/-- A parser plugin (handler): a discriminator identity `REPORTER` and a
`Process` operation.  (No exim4 plugin class exists in the source  -
`_plugin_classes = {}` - but plugins can be registered through the parser
manager, so the plugin set is a parameter of the model.) -/
structure Exim4Plugin where
  REPORTER : String
  Process : Int → List (String × String) → ProcessOutcome

/-- Python `dict.get(key, None)` over an association list whose keys are
unique (insertion overwrites). -/
def dictGet {α : Type} (d : List (String × α)) (k : String) : Option α :=
  (d.find? (fun kv => kv.1 = k)).map (fun kv => kv.2)

/-- Python `d[key] = value`: overwrite the existing binding or append. -/
def dictInsert {α : Type} (d : List (String × α)) (k : String) (v : α) :
    List (String × α) :=
  if d.any (fun kv => kv.1 = k) then
    d.map (fun kv => if kv.1 = k then (k, v) else kv)
  else
    d ++ [(k, v)]

/-- The mutable attributes of an `Exim4Parser` instance
(`src/plaso/parsers/exim.py` lines 76-82), with the plugin objects of the
base class made explicit. -/
structure Exim4ParserState where
  lastMonth : Nat
  maximumYear : Nat
  pluginObjects : List Exim4Plugin
  pluginObjectsByReporter : List (String × Exim4Plugin)
  yearUse : Nat

/-- `Exim4Parser.__init__` (`src/plaso/parsers/exim.py` lines 76-82). -/
def initState : Exim4ParserState :=
  { lastMonth := 0, maximumYear := 0, pluginObjects := [],
    pluginObjectsByReporter := [], yearUse := 0 }

/-- Modelled from the spec: the base-class `EnablePlugins` called by `super()`
(`plaso/parsers/plugins` manager, not included under `src/`).  Per spec
section 4.4, an empty or unset include list activates every known handler;
otherwise only handlers whose identity appears in the include list become
active. -/
def activePlugins (known : List Exim4Plugin) (includes : Option (List String)) :
    List Exim4Plugin :=
  match includes with
  | none => known
  | some [] => known
  | some l => known.filter (fun p => l.contains p.REPORTER)

/-- `Exim4Parser.EnablePlugins` (`src/plaso/parsers/exim.py` lines 84-96):
calls the base-class enable (modelled by `activePlugins`), then rebuilds
`_plugin_objects_by_reporter` from scratch from the active plugin objects. -/
def EnablePlugins (known : List Exim4Plugin) (st : Exim4ParserState)
    (includes : Option (List String)) : Exim4ParserState :=
  let active := activePlugins known includes
  { st with
    pluginObjects := active,
    pluginObjectsByReporter :=
      active.foldl (fun d p => dictInsert d p.REPORTER p) [] }

/-- The mediator collaborator: only its timezone is read by `ParseRecord`;
produced events are collected in the `DispatchResult`. -/
structure ParserMediator where
  timezoneOffset : Int

/-- What one `ParseRecord` call did: the events the dispatcher itself passed
to `mediator.ProduceEvent`, the events emitted by a plugin's `Process`, and
the `Process` invocation (timestamp and attributes), if one happened. -/
structure DispatchResult where
  producedEvents : List TextEvent
  handlerEvents : List TextEvent
  handlerInvocation : Option (Int × List (String × String))
deriving DecidableEq, Repr

/-- `Exim4Parser.ParseRecord` (`src/plaso/parsers/exim.py` lines 98-133),
with the instance state threaded explicitly (the method assigns no instance
attribute) and the raised errors returned in `Except`.  The statements mirror
the source order: the unsupported-key check, the timestamp conversion, then
the lookup of `structure.reporter` in `_plugin_objects_by_reporter` with the
generic-event fallback for a missing plugin or a `WrongPlugin` signal. -/
def ParseRecord (st : Exim4ParserState) (mediator : ParserMediator)
    (key : String) (record : ParsedRecord) :
    Exim4ParserState × Except Exim4Error DispatchResult :=
  if SUPPORTED_KEYS.contains key = false then
    (st, .error (.unableToParseFile ("Unsupported key: " ++ key)))
  else
    match FromTimeParts record.year record.month record.day record.hour
        record.minute record.second mediator.timezoneOffset with
    | .error e => (st, .error e)
    | .ok timestamp =>
      let reporter := record.reporter
      let attributes := [("body", record.body)]
      match dictGet st.pluginObjectsByReporter reporter with
      | none =>
        (st, .ok { producedEvents := [Exim4LineEvent timestamp 0 attributes],
                   handlerEvents := [], handlerInvocation := none })
      | some pluginObject =>
        match pluginObject.Process timestamp attributes with
        | .emitted events =>
          (st, .ok { producedEvents := [], handlerEvents := events,
                     handlerInvocation := some (timestamp, attributes) })
        | .wrongPlugin =>
          (st, .ok { producedEvents := [Exim4LineEvent timestamp 0 attributes],
                     handlerEvents := [],
                     handlerInvocation := some (timestamp, attributes) })

/-- The decimal digit character for `n % 10`. -/
def d2c (n : Nat) : Char :=
  Char.ofNat (48 + n % 10)

/-- Two-digit zero-padded decimal rendering (Python `'{0:02d}'`-style) of a
value below 100. -/
def pad2 (v : Nat) : List Char :=
  [d2c (v / 10), d2c v]

/-- Four-digit zero-padded decimal rendering of a value below 10000. -/
def pad4 (v : Nat) : List Char :=
  [d2c (v / 1000), d2c (v / 100), d2c (v / 10), d2c v]

/-- A line made of a canonical zero-padded `YYYY-MM-DD hh:mm:ss` prefix, the
character `c`, and arbitrary following text. -/
def synthPrefixed (y mo d h mi s : Nat) (c : Char) (rest : List Char) : String :=
  String.mk (pad4 y ++ '-' :: (pad2 mo ++ '-' :: (pad2 d ++ ' ' ::
    (pad2 h ++ ':' :: (pad2 mi ++ ':' :: (pad2 s ++ c :: rest))))))

/-- A line synthesized from known date/time values and a body, in the
grammar's canonical format `YYYY-MM-DD hh:mm:ss <body>`. -/
def synthLine (y mo d h mi s : Nat) (body : List Char) : String :=
  synthPrefixed y mo d h mi s ' ' body

/-- Test fixture: a handler registered for the discriminator
`some_reporter` that accepts every record (its `Process` emits one event and
returns normally). -/
def someReporterPlugin : Exim4Plugin :=
  { REPORTER := "some_reporter",
    Process := fun ts attrs => .emitted [Exim4LineEvent ts 0 attrs] }

/-- Test fixture: a handler whose `Process` always raises `WrongPlugin`. -/
def declinerPlugin : Exim4Plugin :=
  { REPORTER := "decline_reporter", Process := fun _ _ => .wrongPlugin }

/-- Test fixture: a mediator whose timezone is UTC. -/
def utcMediator : ParserMediator :=
  { timezoneOffset := 0 }

/-- Test fixture: the parser state after enabling all plugins from a known
set containing a handler for `some_reporter` and a declining handler. -/
def fixtureState : Exim4ParserState :=
  EnablePlugins [someReporterPlugin, declinerPlugin] initState none

/-- The record the grammar extracts from the spec's example line
`2016-05-12 10:15:30 some_reporter: connection refused`. -/
def c2Record : ParsedRecord :=
  { year := 2016, month := 5, day := 12, hour := 10, minute := 15,
    second := 30, reporter := "", body := "some_reporter: connection refused" }

theorem toList_mk (L : List Char) : (String.mk L).toList = L := rfl

theorem d2c_mod (n : Nat) : d2c (n % 10) = d2c n := by
  unfold d2c
  congr 1
  omega

theorem d2c_lt_facts :
    ∀ n, n < 10 → (d2c n).isDigit = true ∧ pyWs (d2c n) = false ∧
      (d2c n).toNat = 48 + n := by
  decide

theorem isDigit_d2c (n : Nat) : (d2c n).isDigit = true := by
  rw [← d2c_mod]
  exact (d2c_lt_facts (n % 10) (Nat.mod_lt _ (by omega))).1

theorem pyWs_d2c (n : Nat) : pyWs (d2c n) = false := by
  rw [← d2c_mod]
  exact (d2c_lt_facts (n % 10) (Nat.mod_lt _ (by omega))).2.1

theorem toNat_d2c (n : Nat) : (d2c n).toNat = 48 + n % 10 := by
  rw [← d2c_mod]
  exact (d2c_lt_facts (n % 10) (Nat.mod_lt _ (by omega))).2.2

theorem skipWs_nil : skipWs [] = [] := rfl

theorem skipWs_cons_neg {c : Char} (h : pyWs c = false) (r : List Char) :
    skipWs (c :: r) = c :: r := by
  simp [skipWs, List.dropWhile_cons, h]

theorem skipWs_cons_pos {c : Char} (h : pyWs c = true) (r : List Char) :
    skipWs (c :: r) = skipWs r := by
  simp [skipWs, List.dropWhile_cons, h]

theorem skipWs_pad2 (v : Nat) (r : List Char) :
    skipWs (pad2 v ++ r) = pad2 v ++ r := by
  simp only [pad2, List.cons_append, List.nil_append]
  exact skipWs_cons_neg (pyWs_d2c _) _

theorem skipWs_pad4 (v : Nat) (r : List Char) :
    skipWs (pad4 v ++ r) = pad4 v ++ r := by
  simp only [pad4, List.cons_append, List.nil_append]
  exact skipWs_cons_neg (pyWs_d2c _) _

theorem takeDigit_cons {c : Char} (h : c.isDigit = true) (r : List Char) :
    takeDigit (c :: r) = some (c, r) := by
  simp [takeDigit, h]

theorem takeTwoDigits_pad2 (v : Nat) (r : List Char) :
    takeTwoDigits (pad2 v ++ r) = some (pad2 v, r) := by
  simp [pad2, takeTwoDigits, takeDigit_cons (isDigit_d2c _)]

theorem takeFourDigits_pad4 (v : Nat) (r : List Char) :
    takeFourDigits (pad4 v ++ r) = some (pad4 v, r) := by
  simp [pad4, takeFourDigits, takeTwoDigits, takeDigit_cons (isDigit_d2c _)]

theorem YEAR_pad4 (v : Nat) (r : List Char) :
    YEAR (pad4 v ++ r) = some (pad4 v, r) := by
  rw [YEAR, skipWs_pad4, takeFourDigits_pad4]

theorem TWO_DIGITS_pad2 (v : Nat) (r : List Char) :
    TWO_DIGITS (pad2 v ++ r) = some (pad2 v, r) := by
  rw [TWO_DIGITS, skipWs_pad2, takeTwoDigits_pad2]

theorem TWO_DIGITS_sp_pad2 (v : Nat) (r : List Char) :
    TWO_DIGITS (' ' :: (pad2 v ++ r)) = some (pad2 v, r) := by
  rw [TWO_DIGITS, skipWs_cons_pos (by decide), skipWs_pad2, takeTwoDigits_pad2]

theorem pLit_cons {c : Char} (h : pyWs c = false) (r : List Char) :
    pLit c (c :: r) = some r := by
  rw [pLit, skipWs_cons_neg h]
  simp

theorem digitsToNat_pad2 {v : Nat} (hv : v < 100) :
    digitsToNat (pad2 v) = v := by
  simp [pad2, digitsToNat, toNat_d2c]
  omega

theorem digitsToNat_pad4 {v : Nat} (hv : v < 10000) :
    digitsToNat (pad4 v) = v := by
  simp [pad4, digitsToNat, toNat_d2c]
  omega

theorem boundaryAt_nil : boundaryAt [] = true := rfl

theorem boundaryAt_cons_ne {c : Char} (h : c ≠ '\n') (r : List Char) :
    boundaryAt (c :: r) = false := by
  simp [boundaryAt, h]

theorem bodyMatch_total (cs : List Char) : (bodyMatch cs).isSome = true := by
  induction cs with
  | nil => rfl
  | cons c rest ih =>
    rw [bodyMatch]
    by_cases h : boundaryAt (c :: rest) = true
    · simp [h]
    · simp only [Bool.not_eq_true] at h
      simp only [h, if_false]
      rcases hr : bodyMatch rest with _ | ⟨b, r⟩
      · rw [hr] at ih
        simp at ih
      · simp

theorem bodyMatch_no_newline {cs : List Char} (h : ∀ c ∈ cs, c ≠ '\n') :
    bodyMatch cs = some (cs, []) := by
  induction cs with
  | nil => rfl
  | cons c rest ih =>
    have hc : c ≠ '\n' := h c (List.mem_cons_self c rest)
    have hrec := ih (fun x hx => h x (List.mem_cons_of_mem c hx))
    rw [bodyMatch, boundaryAt_cons_ne hc, if_neg (by simp), hrec]

theorem bodyMatch_sound {cs b r : List Char} (h : bodyMatch cs = some (b, r)) :
    cs = b ++ r ∧ boundaryAt r = true ∧
      ∀ b2 r2, cs = b2 ++ r2 → boundaryAt r2 = true → b.length ≤ b2.length := by
  induction cs generalizing b r with
  | nil =>
    rw [bodyMatch] at h
    simp only [boundaryAt_nil, if_true, Option.some.injEq, Prod.mk.injEq] at h
    obtain ⟨hb, hr⟩ := h
    subst hb; subst hr
    refine ⟨rfl, boundaryAt_nil, ?_⟩
    intro b2 r2 _ _
    simp
  | cons c rest ih =>
    rw [bodyMatch] at h
    by_cases hb : boundaryAt (c :: rest) = true
    · rw [if_pos hb] at h
      simp only [Option.some.injEq, Prod.mk.injEq] at h
      obtain ⟨hb1, hr1⟩ := h
      subst hb1; subst hr1
      refine ⟨rfl, hb, ?_⟩
      intro b2 r2 _ _
      simp
    · simp only [Bool.not_eq_true] at hb
      rw [hb, if_neg (by simp)] at h
      rcases hrec : bodyMatch rest with _ | ⟨b1, r1⟩
      · rw [hrec] at h
        cases h
      · rw [hrec] at h
        simp only [Option.some.injEq, Prod.mk.injEq] at h
        obtain ⟨hb1, hr1⟩ := h
        subst hb1; subst hr1
        obtain ⟨hsplit, hbound, hmin⟩ := ih hrec
        refine ⟨by rw [hsplit]; rfl, hbound, ?_⟩
        intro b2 r2 hcs hr2
        cases b2 with
        | nil =>
          simp at hcs
          rw [← hcs] at hr2
          rw [hr2] at hb
          cases hb
        | cons c2 b2t =>
          simp only [List.cons_append, List.cons.injEq] at hcs
          obtain ⟨_, htail⟩ := hcs
          have := hmin b2t r2 htail hr2
          simp only [List.length_cons]
          omega

theorem lineEndP_of_boundary {r : List Char} (h : boundaryAt r = true) :
    (lineEndP r).isSome = true := by
  cases r with
  | nil => rfl
  | cons c t =>
    rw [boundaryAt] at h
    by_cases hc : c = '\n'
    · subst hc
      rw [lineEndP]
      simp [List.dropWhile_cons]
    · rw [if_neg hc] at h
      cases h

theorem pOptColon_isSome (cs : List Char) : (pOptColon cs).isSome = true := by
  rw [pOptColon]
  rcases h : pLit ':' cs with _ | r <;> simp

theorem parseTail_total (ys mos dcs hcs mics scs cs : List Char) :
    (parseTail ys mos dcs hcs mics scs cs).isSome = true := by
  rw [parseTail]
  rcases hoc : pOptColon cs with _ | cs11
  · have := pOptColon_isSome cs
    rw [hoc] at this
    cases this
  · simp only [Option.some_bind]
    rcases hbm : bodyMatch (skipWs cs11) with _ | ⟨b, r⟩
    · have := bodyMatch_total (skipWs cs11)
      rw [hbm] at this
      cases this
    · simp only [Option.some_bind]
      have hb := (bodyMatch_sound hbm).2.1
      rcases hle : lineEndP r with _ | t
      · have := lineEndP_of_boundary hb
        rw [hle] at this
        cases this
      · simp

theorem parse_canonical (y mo d h mi s : Nat) (c : Char) (rest : List Char) :
    parseExim4Line (synthPrefixed y mo d h mi s c rest) =
      parseTail (pad4 y) (pad2 mo) (pad2 d) (pad2 h) (pad2 mi) (pad2 s)
        (c :: rest) := by
  rw [parseExim4Line, synthPrefixed, toList_mk]
  rw [YEAR_pad4, Option.some_bind, pLit_cons (by decide), Option.some_bind,
    TWO_DIGITS_pad2, Option.some_bind, pLit_cons (by decide), Option.some_bind,
    TWO_DIGITS_pad2, Option.some_bind]
  rw [TWO_DIGITS_sp_pad2, Option.some_bind, pLit_cons (by decide), Option.some_bind,
    TWO_DIGITS_pad2, Option.some_bind, pLit_cons (by decide), Option.some_bind,
    TWO_DIGITS_pad2, Option.some_bind]

theorem parseTail_clean (ys mos dcs hcs mics scs : List Char) {body : List Char}
    (hb1 : ∀ c ∈ body, c ≠ '\n')
    (hb2 : ∀ c, body.head? = some c → pyWs c = false ∧ c ≠ ':') :
    parseTail ys mos dcs hcs mics scs (' ' :: body) =
      some { year := digitsToNat ys, month := digitsToNat mos,
             day := digitsToNat dcs, hour := digitsToNat hcs,
             minute := digitsToNat mics, second := digitsToNat scs,
             reporter := "", body := String.mk body } := by
  have hskip : skipWs (' ' :: body) = body := by
    cases body with
    | nil => rfl
    | cons c t =>
      rw [skipWs_cons_pos (by decide)]
      exact skipWs_cons_neg ((hb2 c rfl).1) t
  have hcolon : pLit ':' (' ' :: body) = none := by
    rw [pLit, hskip]
    cases body with
    | nil => rfl
    | cons c t =>
      simp [(hb2 c rfl).2]
  rw [parseTail, pOptColon, hcolon, Option.some_bind, hskip,
    bodyMatch_no_newline hb1, Option.some_bind]
  rfl

theorem parse_synthLine {y mo d h mi s : Nat} {body : List Char}
    (hy : y < 10000) (hmo : mo < 100) (hd : d < 100) (hh : h < 100)
    (hmi : mi < 100) (hs : s < 100)
    (hb1 : ∀ c ∈ body, c ≠ '\n')
    (hb2 : ∀ c, body.head? = some c → pyWs c = false ∧ c ≠ ':') :
    parseExim4Line (synthLine y mo d h mi s body) =
      some { year := y, month := mo, day := d, hour := h, minute := mi,
             second := s, reporter := "", body := String.mk body } := by
  rw [synthLine, parse_canonical, parseTail_clean _ _ _ _ _ _ hb1 hb2,
    digitsToNat_pad4 hy, digitsToNat_pad2 hmo, digitsToNat_pad2 hd,
    digitsToNat_pad2 hh, digitsToNat_pad2 hmi, digitsToNat_pad2 hs]

theorem dropIf_dash (r : List Char) :
    dropIf (fun x => x = '-') ('-' :: r) = some r := by
  simp [dropIf]

theorem dropIf_colon (r : List Char) :
    dropIf (fun x => x = ':') (':' :: r) = some r := by
  simp [dropIf]

theorem dropIf_space {c : Char} (h : pySpaceRe c = true) (r : List Char) :
    dropIf pySpaceRe (c :: r) = some r := by
  simp [dropIf, h]

theorem verification_canonical (y mo d h mi s : Nat) {c : Char}
    (hc : pySpaceRe c = true) (rest : List Char) :
    VerifyStructure (synthPrefixed y mo d h mi s c rest) = true := by
  rw [VerifyStructure, synthPrefixed, toList_mk, verificationMatch]
  simp only [takeFourDigits_pad4, takeTwoDigits_pad2, Option.some_bind,
    dropIf_dash, dropIf_colon, dropIf_space (show pySpaceRe ' ' = true by decide),
    dropIf_space hc, Option.isSome_some]

theorem parse_isSome_canonical (y mo d h mi s : Nat) (c : Char)
    (rest : List Char) :
    (parseExim4Line (synthPrefixed y mo d h mi s c rest)).isSome = true := by
  rw [parse_canonical]
  exact parseTail_total _ _ _ _ _ _ _

theorem parseTail_some_reporter {ys mos dcs hcs mics scs cs : List Char}
    {rec : ParsedRecord}
    (h : parseTail ys mos dcs hcs mics scs cs = some rec) :
    rec.reporter = "" := by
  rw [parseTail] at h
  rcases hoc : pOptColon cs with _ | cs11 <;> rw [hoc] at h
  · cases h
  · rw [Option.some_bind] at h
    rcases hbm : bodyMatch (skipWs cs11) with _ | ⟨b, r⟩ <;> rw [hbm] at h
    · cases h
    · rw [Option.some_bind] at h
      rcases hle : lineEndP r with _ | t <;> rw [hle] at h
      · cases h
      · simp only [Option.map_some', Option.some.injEq] at h
        rw [← h]

theorem parse_reporter_empty {line : String} {rec : ParsedRecord}
    (h : parseExim4Line line = some rec) : rec.reporter = "" := by
  rw [parseExim4Line] at h
  simp only [Option.bind_eq_some] at h
  obtain ⟨a1, _, a2, _, a3, _, a4, _, a5, _, a6, _, a7, _, a8, _, a9, _, a10, _, h⟩ := h
  exact parseTail_some_reporter h

theorem ParseRecord_unsupported {key : String}
    (h : SUPPORTED_KEYS.contains key = false) (st : Exim4ParserState)
    (m : ParserMediator) (rec : ParsedRecord) :
    ParseRecord st m key rec =
      (st, .error (.unableToParseFile ("Unsupported key: " ++ key))) := by
  rw [ParseRecord, if_pos h]

theorem ParseRecord_invalid {key : String}
    (h : SUPPORTED_KEYS.contains key = true) {st : Exim4ParserState}
    {m : ParserMediator} {rec : ParsedRecord} {e : Exim4Error}
    (hts : FromTimeParts rec.year rec.month rec.day rec.hour rec.minute
      rec.second m.timezoneOffset = .error e) :
    ParseRecord st m key rec = (st, .error e) := by
  rw [ParseRecord, if_neg (by rw [h]; decide), hts]

theorem ParseRecord_no_handler {key : String}
    (h : SUPPORTED_KEYS.contains key = true) {st : Exim4ParserState}
    {m : ParserMediator} {rec : ParsedRecord} {ts : Int}
    (hts : FromTimeParts rec.year rec.month rec.day rec.hour rec.minute
      rec.second m.timezoneOffset = .ok ts)
    (hget : dictGet st.pluginObjectsByReporter rec.reporter = none) :
    ParseRecord st m key rec =
      (st, .ok { producedEvents := [Exim4LineEvent ts 0 [("body", rec.body)]],
                 handlerEvents := [], handlerInvocation := none }) := by
  rw [ParseRecord, if_neg (by rw [h]; decide), hts]
  simp only [hget]

theorem ParseRecord_declined {key : String}
    (h : SUPPORTED_KEYS.contains key = true) {st : Exim4ParserState}
    {m : ParserMediator} {rec : ParsedRecord} {ts : Int} {p : Exim4Plugin}
    (hts : FromTimeParts rec.year rec.month rec.day rec.hour rec.minute
      rec.second m.timezoneOffset = .ok ts)
    (hget : dictGet st.pluginObjectsByReporter rec.reporter = some p)
    (hproc : p.Process ts [("body", rec.body)] = .wrongPlugin) :
    ParseRecord st m key rec =
      (st, .ok { producedEvents := [Exim4LineEvent ts 0 [("body", rec.body)]],
                 handlerEvents := [],
                 handlerInvocation := some (ts, [("body", rec.body)]) }) := by
  rw [ParseRecord, if_neg (by rw [h]; decide), hts]
  simp only [hget, hproc]

theorem FromTimeParts_error {y mo d h mi s : Nat} {tz : Int} {e : Exim4Error}
    (hF : FromTimeParts y mo d h mi s tz = .error e) : e = .invalidTimestamp := by
  rw [FromTimeParts] at hF
  split at hF
  · cases hF
  · injection hF with h2
    exact h2.symm

theorem reporterChar_facts {c : Char} (h : isReporterChar c = true) :
    c ≠ '\n' ∧ pyWs c = false ∧ c ≠ ':' := by
  have hnl : c ≠ '\n' := by rintro rfl; exact absurd h (by decide)
  have hsp : c ≠ ' ' := by rintro rfl; exact absurd h (by decide)
  have hta : c ≠ '\t' := by rintro rfl; exact absurd h (by decide)
  have hco : c ≠ ':' := by rintro rfl; exact absurd h (by decide)
  exact ⟨hnl, by simp [pyWs, hsp, hta, hnl], hco⟩

theorem ParseRecord_accepted {key : String}
    (h : SUPPORTED_KEYS.contains key = true) {st : Exim4ParserState}
    {m : ParserMediator} {rec : ParsedRecord} {ts : Int} {p : Exim4Plugin}
    {events : List TextEvent}
    (hts : FromTimeParts rec.year rec.month rec.day rec.hour rec.minute
      rec.second m.timezoneOffset = .ok ts)
    (hget : dictGet st.pluginObjectsByReporter rec.reporter = some p)
    (hproc : p.Process ts [("body", rec.body)] = .emitted events) :
    ParseRecord st m key rec =
      (st, .ok { producedEvents := [], handlerEvents := events,
                 handlerInvocation := some (ts, [("body", rec.body)]) }) := by
  rw [ParseRecord, if_neg (by rw [h]; decide), hts]
  simp only [hget, hproc]

/-- Claim C1: for every `ParseRecord` call with a supported structure key
whose timestamp conversion succeeds: with no handler registered for the
record's discriminator, exactly one generic event is produced, carrying the
converted timestamp and the attributes `{body: record.body}` unchanged; with
a registered handler whose `Process` raises `WrongPlugin`, the produced
events are identical to the no-handler case; with a registered handler whose
`Process` completes normally, the dispatcher itself produces no generic
event. -/
theorem exim4_c1_dispatch_law (st : Exim4ParserState) (m : ParserMediator)
    (key : String) (rec : ParsedRecord) (ts : Int)
    (hkey : SUPPORTED_KEYS.contains key = true)
    (hts : FromTimeParts rec.year rec.month rec.day rec.hour rec.minute
      rec.second m.timezoneOffset = .ok ts) :
    (dictGet st.pluginObjectsByReporter rec.reporter = none →
      (ParseRecord st m key rec).2 =
        .ok { producedEvents := [Exim4LineEvent ts 0 [("body", rec.body)]],
              handlerEvents := [], handlerInvocation := none }) ∧
    (∀ p, dictGet st.pluginObjectsByReporter rec.reporter = some p →
      p.Process ts [("body", rec.body)] = .wrongPlugin →
      (ParseRecord st m key rec).2 =
        .ok { producedEvents := [Exim4LineEvent ts 0 [("body", rec.body)]],
              handlerEvents := [],
              handlerInvocation := some (ts, [("body", rec.body)]) }) ∧
    (∀ p events, dictGet st.pluginObjectsByReporter rec.reporter = some p →
      p.Process ts [("body", rec.body)] = .emitted events →
      (ParseRecord st m key rec).2 =
        .ok { producedEvents := [], handlerEvents := events,
              handlerInvocation := some (ts, [("body", rec.body)]) }) := by
  refine ⟨fun hget => ?_, fun p hget hproc => ?_, fun p events hget hproc => ?_⟩
  · rw [ParseRecord_no_handler hkey hts hget]
  · rw [ParseRecord_declined hkey hts hget hproc]
  · rw [ParseRecord_accepted hkey hts hget hproc]

/-- Witness for C1: concrete instantiation on the declining-handler branch,
with the handler registered for `decline_reporter` in `fixtureState`. -/
theorem exim4_c1_dispatch_law_witness :
    (ParseRecord fixtureState utcMediator "exim4_line"
        { year := 2016, month := 5, day := 12, hour := 10, minute := 15,
          second := 30, reporter := "decline_reporter", body := "x" }).2 =
      .ok { producedEvents := [Exim4LineEvent 1463048130000000 0 [("body", "x")]],
            handlerEvents := [],
            handlerInvocation := some (1463048130000000, [("body", "x")]) } :=
  (exim4_c1_dispatch_law fixtureState utcMediator "exim4_line"
    { year := 2016, month := 5, day := 12, hour := 10, minute := 15,
      second := 30, reporter := "decline_reporter", body := "x" }
    1463048130000000 rfl rfl).2.1 declinerPlugin rfl rfl

/-- Counterexample to claim C2: on the spec's example line, with an accepting
handler registered for `some_reporter` (in `fixtureState`), `ParseRecord`
never invokes any handler's `Process` (the grammar never sets a reporter, so
the lookup key is the empty string) and instead itself emits a generic event
whose body is the whole text after the date-time, contradicting the claimed
`Process` invocation with attributes `{body: "connection refused"}`. -/
theorem exim4_c2_counterexample :
    parseExim4Line "2016-05-12 10:15:30 some_reporter: connection refused" =
      some c2Record ∧
    (ParseRecord fixtureState utcMediator "exim4_line" c2Record).2 =
      .ok { producedEvents := [Exim4LineEvent 1463048130000000 0
              [("body", "some_reporter: connection refused")]],
            handlerEvents := [], handlerInvocation := none } :=
  ⟨rfl, rfl⟩

/-- Claim C2 as amended: for the input line
`2016-05-12 10:15:30 some_reporter: connection refused` with timezone UTC and
a handler registered for `some_reporter` that accepts, the grammar leaves the
reporter empty and puts `some_reporter: connection refused` into the body;
`ParseRecord` does not invoke the handler and itself emits one generic event
with timestamp 2016-05-12T10:15:30Z (1463048130000000 microseconds since the
epoch) and attributes `{body: "some_reporter: connection refused"}`. -/
theorem exim4_c2_amended_scenario :
    c2Record.reporter = "" ∧
    c2Record.body = "some_reporter: connection refused" ∧
    dictGet fixtureState.pluginObjectsByReporter "some_reporter" =
      some someReporterPlugin ∧
    FromTimeParts 2016 5 12 10 15 30 utcMediator.timezoneOffset =
      .ok 1463048130000000 ∧
    (ParseRecord fixtureState utcMediator "exim4_line" c2Record).2 =
      .ok { producedEvents := [Exim4LineEvent 1463048130000000 0
              [("body", "some_reporter: connection refused")]],
            handlerEvents := [], handlerInvocation := none } :=
  ⟨rfl, rfl, rfl, rfl, rfl⟩

/-- Claim C3: every record the exim4 line grammar produces has an empty
reporter field (the grammar defines no reporter sub-pattern); consequently
the handler lookup of `ParseRecord` reads the index only at the empty
discriminator (two states whose indices agree at `""` dispatch identically);
and the parsed body contains the entire text after the date-time prefix,
including a reporter-like substring made of `_REPORTER_CHARACTERS`. -/
theorem exim4_c3_reporter_invariant :
    (∀ (line : String) (rec : ParsedRecord),
      parseExim4Line line = some rec → rec.reporter = "") ∧
    (∀ (st : Exim4ParserState) (m : ParserMediator) (line : String)
       (rec : ParsedRecord) (d : List (String × Exim4Plugin)),
      parseExim4Line line = some rec →
      dictGet d "" = dictGet st.pluginObjectsByReporter "" →
      (ParseRecord { st with pluginObjectsByReporter := d } m "exim4_line" rec).2 =
        (ParseRecord st m "exim4_line" rec).2) ∧
    (∀ (y mo d h mi s : Nat) (rep msg : List Char),
      y < 10000 → mo < 100 → d < 100 → h < 100 → mi < 100 → s < 100 →
      rep ≠ [] → (∀ c ∈ rep, isReporterChar c = true) →
      (∀ c ∈ msg, c ≠ '\n') →
      parseExim4Line (synthLine y mo d h mi s (rep ++ ':' :: ' ' :: msg)) =
        some { year := y, month := mo, day := d, hour := h, minute := mi,
               second := s, reporter := "",
               body := String.mk (rep ++ ':' :: ' ' :: msg) }) := by
  refine ⟨fun line rec h => parse_reporter_empty h, ?_, ?_⟩
  · intro st m line rec d hline hd
    have hrep := parse_reporter_empty hline
    have hkey : SUPPORTED_KEYS.contains "exim4_line" = true := rfl
    rcases hF : FromTimeParts rec.year rec.month rec.day rec.hour rec.minute
        rec.second m.timezoneOffset with e | ts
    · rw [ParseRecord_invalid hkey hF, ParseRecord_invalid hkey hF]
    · have hd2 : dictGet d rec.reporter =
          dictGet st.pluginObjectsByReporter rec.reporter := by
        rw [hrep]; exact hd
      rcases hget : dictGet st.pluginObjectsByReporter rec.reporter with _ | p
      · rw [ParseRecord_no_handler hkey hF (by rw [hd2]; exact hget),
          ParseRecord_no_handler hkey hF hget]
      · cases hproc : p.Process ts [("body", rec.body)] with
        | emitted events =>
          rw [ParseRecord_accepted hkey hF (by rw [hd2]; exact hget) hproc,
            ParseRecord_accepted hkey hF hget hproc]
        | wrongPlugin =>
          rw [ParseRecord_declined hkey hF (by rw [hd2]; exact hget) hproc,
            ParseRecord_declined hkey hF hget hproc]
  · intro y mo d h mi s rep msg hy hmo hd hh hmi hs hne hrep hmsg
    refine parse_synthLine hy hmo hd hh hmi hs ?_ ?_
    · intro c hc
      rcases List.mem_append.1 hc with hc1 | hc2
      · exact (reporterChar_facts (hrep c hc1)).1
      · rcases hc2 with _ | ⟨_, hc3⟩
        · decide
        · rcases hc3 with _ | ⟨_, hc4⟩
          · decide
          · exact hmsg c hc4
    · intro c hc
      cases rep with
      | nil => exact absurd rfl hne
      | cons c0 t =>
        simp only [List.cons_append, List.head?_cons, Option.some.injEq] at hc
        subst hc
        have hf := reporterChar_facts (hrep c0 (List.mem_cons_self c0 t))
        exact ⟨hf.2.1, hf.2.2⟩

/-- Witness for C3: concrete instantiation of all three parts on the parse of
`2016-05-12 10:15:30 some_reporter: connection refused`. -/
theorem exim4_c3_reporter_invariant_witness :
    c2Record.reporter = "" ∧
    (ParseRecord { initState with
        pluginObjectsByReporter := [("some_reporter", someReporterPlugin)] }
      utcMediator "exim4_line" c2Record).2 =
      (ParseRecord initState utcMediator "exim4_line" c2Record).2 ∧
    parseExim4Line (synthLine 2016 5 12 10 15 30
        ("some_reporter".toList ++ ':' :: ' ' :: "connection refused".toList)) =
      some { year := 2016, month := 5, day := 12, hour := 10, minute := 15,
             second := 30, reporter := "",
             body := String.mk ("some_reporter".toList ++ ':' :: ' ' ::
               "connection refused".toList) } :=
  ⟨exim4_c3_reporter_invariant.1
      "2016-05-12 10:15:30 some_reporter: connection refused" c2Record rfl,
   exim4_c3_reporter_invariant.2.1 initState utcMediator
      "2016-05-12 10:15:30 some_reporter: connection refused" c2Record
      [("some_reporter", someReporterPlugin)] rfl rfl,
   exim4_c3_reporter_invariant.2.2 2016 5 12 10 15 30
      "some_reporter".toList "connection refused".toList
      (by decide) (by decide) (by decide) (by decide) (by decide) (by decide)
      (by decide) (by decide) (by decide)⟩

/-- Claim C4: the body capture of the grammar splits the remaining input at
the first position where the lookahead boundary holds: the body extends up to
but excluding the boundary (so a next line matching the three-letter-month
date-prefix pattern is not consumed), and no earlier split satisfies the
boundary (so an embedded newline followed by text that does not match the
date-prefix pattern stays inside one record's body). -/
theorem exim4_c4_body_boundary :
    ∀ cs b r, bodyMatch cs = some (b, r) →
      cs = b ++ r ∧ boundaryAt r = true ∧
        ∀ b2 r2, cs = b2 ++ r2 → boundaryAt r2 = true → b.length ≤ b2.length :=
  fun _ _ _ h => bodyMatch_sound h

/-- Witness for C4: the body of `first part\nnot a date\nJan 12 10:15:30 next`
keeps the embedded newline before `not a date` (which does not match the
date-prefix pattern) and stops exactly before `\nJan 12 10:15:30 next`. -/
theorem exim4_c4_body_boundary_witness :
    "first part\nnot a date\nJan 12 10:15:30 next".toList =
      "first part\nnot a date".toList ++ "\nJan 12 10:15:30 next".toList ∧
    boundaryAt "\nJan 12 10:15:30 next".toList = true ∧
    ∀ b2 r2,
      "first part\nnot a date\nJan 12 10:15:30 next".toList = b2 ++ r2 →
      boundaryAt r2 = true → "first part\nnot a date".toList.length ≤ b2.length :=
  exim4_c4_body_boundary "first part\nnot a date\nJan 12 10:15:30 next".toList
    "first part\nnot a date".toList "\nJan 12 10:15:30 next".toList rfl

/-- Counterexample to claim C5: the full grammar accepts the line
`2016-05-12 10:15:30` (with an empty body), but `VerifyStructure` returns
false on it because `_VERIFICATION_REGEX` demands a whitespace character
after the seconds; the probe is therefore not a subset of the grammar's
date-time pattern and produces a false negative. -/
theorem exim4_c5_counterexample :
    (parseExim4Line "2016-05-12 10:15:30").isSome = true ∧
    VerifyStructure "2016-05-12 10:15:30" = false :=
  ⟨rfl, rfl⟩

/-- Claim C5 as amended: for every line made of a canonical zero-padded
`YYYY-MM-DD hh:mm:ss` prefix followed by a regex-whitespace character and
arbitrary text - all of which the full grammar accepts - `VerifyStructure`
returns true; the unrestricted claim fails because the grammar also accepts
lines without the trailing whitespace (see the counterexample). -/
theorem exim4_c5_verifier_amended :
    ∀ (y mo d h mi s : Nat) (c : Char) (rest : List Char),
      pySpaceRe c = true →
      VerifyStructure (synthPrefixed y mo d h mi s c rest) = true ∧
      (parseExim4Line (synthPrefixed y mo d h mi s c rest)).isSome = true :=
  fun y mo d h mi s c rest hc =>
    ⟨verification_canonical y mo d h mi s hc rest,
     parse_isSome_canonical y mo d h mi s c rest⟩

/-- Witness for C5 (amended): the line `2016-05-12 10:15:30 x` passes both
the verifier and the full grammar. -/
theorem exim4_c5_verifier_amended_witness :
    VerifyStructure (synthPrefixed 2016 5 12 10 15 30 ' ' "x".toList) = true ∧
    (parseExim4Line (synthPrefixed 2016 5 12 10 15 30 ' ' "x".toList)).isSome = true :=
  exim4_c5_verifier_amended 2016 5 12 10 15 30 ' ' "x".toList rfl

/-- Claim C6: enabling with an absent or empty include list activates every
known handler; enabling with the singleton include list `[X]`, when exactly
one known handler carries the identity `X`, leaves exactly that handler's
discriminator in the index, whatever the previous state was; and every call
rebuilds the discriminator index and the active set from scratch - the
result never depends on the previous state's contents. -/
theorem exim4_c6_enable_law :
    (∀ known st, (EnablePlugins known st none).pluginObjects = known ∧
      (EnablePlugins known st (some [])).pluginObjects = known) ∧
    (∀ known st X x,
      known.filter (fun p => [X].contains p.REPORTER) = [x] →
      (EnablePlugins known st (some [X])).pluginObjectsByReporter = [(X, x)]) ∧
    (∀ known st st2 includes,
      (EnablePlugins known st includes).pluginObjectsByReporter =
        (EnablePlugins known st2 includes).pluginObjectsByReporter ∧
      (EnablePlugins known st includes).pluginObjects =
        (EnablePlugins known st2 includes).pluginObjects) := by
  refine ⟨fun known st => ⟨rfl, rfl⟩, ?_, fun known st st2 includes => ⟨rfl, rfl⟩⟩
  intro known st X x hfil
  have hx : x ∈ known.filter (fun p => [X].contains p.REPORTER) := by
    rw [hfil]; exact List.mem_singleton.2 rfl
  have hpred : ([X].contains x.REPORTER) = true := (List.mem_filter.1 hx).2
  have hXr : x.REPORTER = X := by
    simpa using hpred
  rw [EnablePlugins]
  simp only [activePlugins, hfil, List.foldl_cons, List.foldl_nil]
  rw [dictInsert]
  simp [hXr]

/-- Witness for C6: from the known set containing the `some_reporter` and
`decline_reporter` handlers, enabling only `some_reporter` leaves exactly
that one discriminator in the index. -/
theorem exim4_c6_enable_law_witness :
    (EnablePlugins [someReporterPlugin, declinerPlugin] initState
        (some ["some_reporter"])).pluginObjectsByReporter =
      [("some_reporter", someReporterPlugin)] :=
  exim4_c6_enable_law.2.1 [someReporterPlugin, declinerPlugin] initState
    "some_reporter" someReporterPlugin rfl

/-- Claim C7: `ParseRecord` with a structure key outside `_SUPPORTED_KEYS`
fails with `UnableToParseFile`, for every state, mediator, and record; for
the one supported key `exim4_line`, `ParseRecord` never fails with
`UnableToParseFile`. -/
theorem exim4_c7_unsupported_key :
    (∀ st m key rec, SUPPORTED_KEYS.contains key = false →
      (ParseRecord st m key rec).2 =
        .error (.unableToParseFile ("Unsupported key: " ++ key))) ∧
    (∀ st m rec msg,
      (ParseRecord st m "exim4_line" rec).2 ≠
        .error (.unableToParseFile msg)) := by
  constructor
  · intro st m key rec h
    rw [ParseRecord_unsupported h]
  · intro st m rec msg heq
    have hkey : SUPPORTED_KEYS.contains "exim4_line" = true := rfl
    rcases hF : FromTimeParts rec.year rec.month rec.day rec.hour rec.minute
        rec.second m.timezoneOffset with e | ts
    · have he := FromTimeParts_error hF
      rw [ParseRecord_invalid hkey hF] at heq
      rw [he] at heq
      simp at heq
    · rcases hget : dictGet st.pluginObjectsByReporter rec.reporter with _ | p
      · rw [ParseRecord_no_handler hkey hF hget] at heq
        simp at heq
      · cases hproc : p.Process ts [("body", rec.body)] with
        | emitted events =>
          rw [ParseRecord_accepted hkey hF hget hproc] at heq
          simp at heq
        | wrongPlugin =>
          rw [ParseRecord_declined hkey hF hget hproc] at heq
          simp at heq

/-- Witness for C7: the unrecognized key `bogus_key` fails with
`UnableToParseFile` on a concrete state and record. -/
theorem exim4_c7_unsupported_key_witness :
    (ParseRecord initState utcMediator "bogus_key" c2Record).2 =
      .error (.unableToParseFile ("Unsupported key: " ++ "bogus_key")) :=
  exim4_c7_unsupported_key.1 initState utcMediator "bogus_key" c2Record rfl

/-- Claim C8: the grammar matches `2016-13-40 99:99:99 bad` (the numeric
tokens carry no range check), the timestamp normalization rejects the
out-of-calendar field values with the InvalidTimestamp condition for every
timezone, and `ParseRecord` on that record fails with InvalidTimestamp - so
it emits no event - for every state and mediator. -/
theorem exim4_c8_invalid_timestamp :
    parseExim4Line "2016-13-40 99:99:99 bad" =
      some { year := 2016, month := 13, day := 40, hour := 99, minute := 99,
             second := 99, reporter := "", body := "bad" } ∧
    (∀ tz, FromTimeParts 2016 13 40 99 99 99 tz = .error .invalidTimestamp) ∧
    (∀ st m, (ParseRecord st m "exim4_line"
        { year := 2016, month := 13, day := 40, hour := 99, minute := 99,
          second := 99, reporter := "", body := "bad" }).2 =
      .error .invalidTimestamp) := by
  refine ⟨rfl, fun tz => ?_, fun st m => ?_⟩
  · rw [FromTimeParts, if_neg (by decide)]
  · rw [@ParseRecord_invalid "exim4_line" rfl st m
      { year := 2016, month := 13, day := 40, hour := 99, minute := 99,
        second := 99, reporter := "", body := "bad" } .invalidTimestamp
      (by rw [FromTimeParts, if_neg (by decide)])]

/-- Counterexample to claim C9: synthesizing a line from the known values
(2016, 5, 12, 10, 15, 30) and the body `:x` yields a record whose body is
`x`, not `:x` - the grammar's `Optional(Suppress(':'))` consumes the leading
colon - so the round trip does not hold for arbitrary body values. -/
theorem exim4_c9_counterexample :
    parseExim4Line (synthLine 2016 5 12 10 15 30 [':', 'x']) =
      some { year := 2016, month := 5, day := 12, hour := 10, minute := 15,
             second := 30, reporter := "", body := "x" } ∧
    ("x" : String) ≠ ":x" :=
  ⟨rfl, by decide⟩

/-- Claim C9 as amended: for known values with a four-digit year, two-digit
month/day/hour/minute/second, and a body that contains no newline and does
not begin with pyparsing whitespace or a colon, matching the synthesized
canonical line yields a record whose fields equal the inputs exactly.  (The
restrictions are forced: a leading colon is consumed by the optional colon of
the grammar, a leading whitespace character is skipped, and a newline can
trigger the body's lookahead boundary.) -/
theorem exim4_c9_roundtrip_amended :
    ∀ (y mo d h mi s : Nat) (body : List Char),
      y < 10000 → mo < 100 → d < 100 → h < 100 → mi < 100 → s < 100 →
      (∀ c ∈ body, c ≠ '\n') →
      (∀ c, body.head? = some c → pyWs c = false ∧ c ≠ ':') →
      parseExim4Line (synthLine y mo d h mi s body) =
        some { year := y, month := mo, day := d, hour := h, minute := mi,
               second := s, reporter := "", body := String.mk body } :=
  fun _ _ _ _ _ _ _ hy hmo hd hh hmi hs hb1 hb2 =>
    parse_synthLine hy hmo hd hh hmi hs hb1 hb2

/-- Witness for C9 (amended): the round trip at (2016, 5, 12, 10, 15, 30)
with body `connection refused`. -/
theorem exim4_c9_roundtrip_amended_witness :
    parseExim4Line (synthLine 2016 5 12 10 15 30 "connection refused".toList) =
      some { year := 2016, month := 5, day := 12, hour := 10, minute := 15,
             second := 30, reporter := "",
             body := String.mk "connection refused".toList } :=
  exim4_c9_roundtrip_amended 2016 5 12 10 15 30 "connection refused".toList
    (by decide) (by decide) (by decide) (by decide) (by decide) (by decide)
    (by decide)
    (by
      intro c hc
      have h3 : 'c' = c := Option.some.inj hc
      rw [← h3]
      decide)

/-- Claim C10: `ParseRecord` never modifies any parser state field - the
state component of its result is exactly the input state, for every key
(supported or not), mediator, and record; the discriminator index is written
only by `EnablePlugins`. -/
theorem exim4_c10_registry_frame :
    ∀ st m key rec, (ParseRecord st m key rec).1 = st := by
  intro st m key rec
  by_cases hk : SUPPORTED_KEYS.contains key = false
  · rw [ParseRecord_unsupported hk]
  · have hk2 : SUPPORTED_KEYS.contains key = true := by
      revert hk
      cases SUPPORTED_KEYS.contains key <;> simp
    rcases hF : FromTimeParts rec.year rec.month rec.day rec.hour rec.minute
        rec.second m.timezoneOffset with e | ts
    · rw [ParseRecord_invalid hk2 hF]
    · rcases hget : dictGet st.pluginObjectsByReporter rec.reporter with _ | p
      · rw [ParseRecord_no_handler hk2 hF hget]
      · cases hproc : p.Process ts [("body", rec.body)] with
        | emitted events => rw [ParseRecord_accepted hk2 hF hget hproc]
        | wrongPlugin => rw [ParseRecord_declined hk2 hF hget hproc]

end Exim4
